import Mathlib

/-!
Verification of the Second Reality cross-platform core
(src/core/dis.c, src/core/part.c, src/core/video.c).

The C code keeps process-wide mutable singletons; here each subsystem's
static state becomes a structure, and each C function becomes a pure
Lean function from state to state (returning a value where the C
function does).  Machine integers are modelled as ℕ/ℤ, with explicit
`% 256` / `% 65536` at the points where the C type (uint8_t, uint16_t)
truncates.  The music subsystem is an external collaborator queried
through `music_is_playing` / `music_get_position_seconds` /
`music_get_current_order`; its observable answers at one instant form a
`MusicState` value that is passed to the functions that read it.
Function-pointer callbacks (copper routines, part lifecycle callbacks)
are opaque external code; the model records their invocations as trace
events and treats them as having no effect on the core's own state.
-/

/-! ## Music query interface (src/audio/music.h, consumed by dis.c) -/

/-- Observable answers of the music collaborator at one instant:
`music_is_playing`, `music_get_position_seconds` (a double, modelled as
an exact rational), `music_get_current_order`, `music_get_current_row`. -/
structure MusicState where
  playing : Bool
  posSeconds : ℚ
  currentOrder : ℤ
  currentRow : ℤ

/-! ## DIS state (the static `dis_state` struct in src/core/dis.c) -/

/-- `DIS_MSG_AREA_SIZE` from dis.h. -/
abbrev DIS_MSG_AREA_SIZE : ℕ := 64

/-- `DIS_MSG_AREA_COUNT` from dis.h. -/
abbrev DIS_MSG_AREA_COUNT : ℕ := 4

/-- `DIS_COPPER_COUNT` from dis.h. -/
abbrev DIS_COPPER_COUNT : ℕ := 3

/-- `DIS_VERSION` from dis.h (0x100). -/
def DIS_VERSION : ℤ := 0x100

/-- The static `dis_state` struct of dis.c.  Copper callbacks are
function pointers; they are modelled as opaque tokens (`Option ℕ`,
`none` = NULL).  Message-area bytes are `msg_areas a i`. -/
structure DisState where
  initialized : Bool
  exit_flag : Bool
  frame_counter : ℕ
  total_frames : ℕ
  music_frame : ℤ
  music_code : ℤ
  music_row : ℤ
  music_plus : ℤ
  msg_areas : Fin DIS_MSG_AREA_COUNT → Fin DIS_MSG_AREA_SIZE → ℕ
  copper : Fin DIS_COPPER_COUNT → Option ℕ

/-- The zero-initialised static storage the C runtime gives `dis_state`
before any call. -/
def dis_state0 : DisState :=
  { initialized := false
    exit_flag := false
    frame_counter := 0
    total_frames := 0
    music_frame := 0
    music_code := 0
    music_row := 0
    music_plus := 0
    msg_areas := fun _ _ => 0
    copper := fun _ => none }

/-- `dis_version` (dis.c lines 32-45): clears the transient fields,
marks the server initialised, returns `DIS_VERSION`.  It does not touch
`copper`, `msg_areas` or `music_frame`. -/
def dis_version (s : DisState) : ℤ × DisState :=
  (DIS_VERSION,
    { s with
      exit_flag := false
      frame_counter := 0
      total_frames := 0
      music_code := 0
      music_row := 0
      music_plus := 0
      initialized := true })

/-- `dis_partstart` (dis.c): just calls `dis_version`. -/
def dis_partstart (s : DisState) : DisState :=
  (dis_version s).2

/-- `dis_waitb` (dis.c lines 51-70): runs the copper callbacks (opaque,
no effect on DIS state), reads `frame_counter`, substitutes 1 when it
is 0, zeroes the counter, and returns the frame count. -/
def dis_waitb (s : DisState) : ℕ × DisState :=
  (if s.frame_counter = 0 then 1 else s.frame_counter,
   { s with frame_counter := 0 })

/-- `dis_exit` (dis.c): reads the exit flag. -/
def dis_exit (s : DisState) : Bool :=
  s.exit_flag

/-- `dis_frame_tick` (dis.c lines 201-204): increments both frame
counters. -/
def dis_frame_tick (s : DisState) : DisState :=
  { s with
    frame_counter := s.frame_counter + 1
    total_frames := s.total_frames + 1 }

/-- `dis_reset` (dis.c lines 223-238): clears the same transient fields
as `dis_version` and additionally sets every copper slot to NULL.
Message areas are deliberately not touched. -/
def dis_reset (s : DisState) : DisState :=
  { s with
    exit_flag := false
    frame_counter := 0
    total_frames := 0
    music_code := 0
    music_row := 0
    music_plus := 0
    copper := fun _ => none }

/-- `dis_msgarea` (dis.c lines 101-108): bounds-checked access to a
64-byte message area; NULL (here `none`) for an invalid index. -/
def dis_msgarea (s : DisState) (areanumber : ℤ) :
    Option (Fin DIS_MSG_AREA_SIZE → ℕ) :=
  if h : 0 ≤ areanumber ∧ areanumber < DIS_MSG_AREA_COUNT then
    some (s.msg_areas ⟨areanumber.toNat, by omega⟩)
  else
    none

/-- A byte store through the pointer returned by `dis_msgarea`
(the only way the C program writes a message area): writes byte `v`
(truncated to uint8_t) at offset `off` of area `areanumber`, a no-op
when the area index is invalid (`dis_msgarea` returned NULL). -/
def dis_msgarea_write (areanumber : ℤ) (off : Fin DIS_MSG_AREA_SIZE)
    (v : ℕ) (s : DisState) : DisState :=
  if h : 0 ≤ areanumber ∧ areanumber < DIS_MSG_AREA_COUNT then
    { s with
      msg_areas := Function.update s.msg_areas ⟨areanumber.toNat, by omega⟩
        (Function.update (s.msg_areas ⟨areanumber.toNat, by omega⟩) off (v % 256)) }
  else
    s

/-- `dis_setcopper` (dis.c lines 110-117): bounds-checked store of a
copper routine (`none` removes it); invalid slots are logged no-ops. -/
def dis_setcopper (routine_number : ℤ) (routine : Option ℕ)
    (s : DisState) : DisState :=
  if h : 0 ≤ routine_number ∧ routine_number < DIS_COPPER_COUNT then
    { s with
      copper := Function.update s.copper ⟨routine_number.toNat, by omega⟩ routine }
  else
    s

/-- `dis_setmframe` (dis.c). -/
def dis_setmframe (frame : ℤ) (s : DisState) : DisState :=
  { s with music_frame := frame }

/-- `dis_getmframe` (dis.c). -/
def dis_getmframe (s : DisState) : ℤ :=
  s.music_frame

/-- `dis_handle_event` (dis.c lines 206-215): an ESC key-down sets the
exit flag; anything else is ignored. -/
def dis_handle_event (esc_key_down : Bool) (s : DisState) : DisState :=
  if esc_key_down then { s with exit_flag := true } else s

/-- `dis_musplus` (dis.c lines 87-93): order*64 + row. -/
def dis_musplus (m : MusicState) : ℤ :=
  m.currentOrder * 64 + m.currentRow

/-- `SYNC_FRAMES_PER_POINT` from dis.c. -/
def SYNC_FRAMES_PER_POINT : ℕ := 600

/-- `SYNC_FRAMES_FIRST` from dis.c. -/
def SYNC_FRAMES_FIRST : ℕ := 1080

/-- `SYNC_POINT_MAX` from dis.c. -/
def SYNC_POINT_MAX : ℕ := 8

/-- `dis_sync` (dis.c lines 127-197).  When music is playing, a pure
threshold function of the playback position (seconds) and the current
order; otherwise a pure function of `total_frames`.  There is no other
state: in particular the function keeps no memory of the value it
returned last. -/
def dis_sync (m : MusicState) (s : DisState) : ℕ :=
  if m.playing then
    let pos := m.posSeconds
    let order := m.currentOrder
    if pos < 3/10 then 0
    else if pos < 11/2 then 1
    else if pos < 21/2 then 2
    else if pos < 31/2 then 3
    else if order ≥ 8 then 8
    else if order ≥ 7 then 7
    else if order ≥ 6 then 6
    else if order ≥ 5 then 5
    else 4
  else
    let frames := s.total_frames
    if frames < SYNC_FRAMES_FIRST then 0
    else min (1 + (frames - SYNC_FRAMES_FIRST) / SYNC_FRAMES_PER_POINT) SYNC_POINT_MAX

/-- Iterated `dis_frame_tick`: `n` frame ticks in a row. -/
def dis_ticks : ℕ → DisState → DisState
  | 0, s => s
  | n + 1, s => dis_ticks n (dis_frame_tick s)

/-! ## Video state (the static `video_state` struct in src/core/video.c) -/

/-- `VIDEO_MODE_13H` from video.h. -/
def VIDEO_MODE_13H : ℕ := 0

/-- `VIDEO_MODE_X` from video.h. -/
def VIDEO_MODE_X : ℕ := 1

/-- `VIDEO_WIDTH` from video.h. -/
def VIDEO_WIDTH : ℕ := 320

/-- `VIDEO_HEIGHT_13H` from video.h. -/
def VIDEO_HEIGHT_13H : ℕ := 200

/-- `VIDEO_HEIGHT_X` from video.h. -/
def VIDEO_HEIGHT_X : ℕ := 400

/-- `FB_SIZE` from video.c: 320 * 400 = 128000 bytes. -/
def FB_SIZE : ℕ := VIDEO_WIDTH * VIDEO_HEIGHT_X

/-- The CPU-visible part of the static `video_state` struct of video.c
(the GPU handles - image, sampler, shader, pipeline - are external
collaborator resources and carry no data the core computes with).
Byte arrays become functions from index to byte value. -/
structure VideoState where
  framebuffer : ℕ → ℕ
  palette : ℕ → ℕ
  rgba_lut : ℕ → ℕ
  mode : ℕ
  start_offset : ℕ
  hscroll : ℕ
  palette_dirty : Bool
  initialized : Bool

/-- The zero-filled `video_state` (static storage / after the memset in
`video_init` and `video_shutdown`). -/
def video_state0 : VideoState :=
  { framebuffer := fun _ => 0
    palette := fun _ => 0
    rgba_lut := fun _ => 0
    mode := 0
    start_offset := 0
    hscroll := 0
    palette_dirty := false
    initialized := false }

/-- The 6-bit → 8-bit channel expansion of `rebuild_rgba_lut`
(video.c line 137): `(v << 2) | (v >> 4)`, stored into a uint8_t. -/
def expand6to8 (v : ℕ) : ℕ :=
  ((v <<< 2) ||| (v >>> 4)) % 256

/-- `rebuild_rgba_lut` (video.c lines 130-144): for each of the 256
palette entries, expand the three 6-bit channels to 8 bits and pack
them as 0xFF000000 | (b << 16) | (g << 8) | r; clear the dirty flag. -/
def rebuild_rgba_lut (s : VideoState) : VideoState :=
  { s with
    rgba_lut := fun i =>
      if i < 256 then
        let r := expand6to8 (s.palette (i * 3 + 0) % 256)
        let g := expand6to8 (s.palette (i * 3 + 1) % 256)
        let b := expand6to8 (s.palette (i * 3 + 2) % 256)
        0xFF000000 ||| (b <<< 16) ||| (g <<< 8) ||| r
      else s.rgba_lut i
    palette_dirty := false }

/-- The active height selected by the mode (video.c lines 148, 313). -/
def video_active_height (s : VideoState) : ℕ :=
  if s.mode = VIDEO_MODE_X then VIDEO_HEIGHT_X else VIDEO_HEIGHT_13H

/-- `pixel_count` of `convert_framebuffer_to_rgba` (video.c line 149). -/
def video_pixel_count (s : VideoState) : ℕ :=
  VIDEO_WIDTH * video_active_height s

/-- `convert_framebuffer_to_rgba` (video.c lines 147-160): the staging
buffer pixels, in order.  Pixel `i` is the RGBA-lookup of framebuffer
byte `start_offset + i` (the source pointer is
`framebuffer + start_offset`; a byte read is a uint8_t, hence `% 256`).
The hscroll field is read into a local and explicitly unused
(`(void)hscroll`, a TODO in the source). -/
def convert_framebuffer_to_rgba (s : VideoState) : List ℕ :=
  (List.range (video_pixel_count s)).map
    (fun i => s.rgba_lut (s.framebuffer (s.start_offset + i) % 256))

/-- The framebuffer byte read `src[i]` of the conversion loop, with the
bounds check the C code omits made explicit: `none` when the index
`start_offset + i` falls outside the allocated `FB_SIZE` bytes. -/
def video_fb_read_checked (s : VideoState) (i : ℕ) : Option ℕ :=
  if s.start_offset + i < FB_SIZE then
    some (s.framebuffer (s.start_offset + i) % 256)
  else
    none

/-- `video_set_mode` (video.c lines 249-253): only the two known modes
are accepted. -/
def video_set_mode (mode : ℕ) (s : VideoState) : VideoState :=
  if mode = VIDEO_MODE_13H ∨ mode = VIDEO_MODE_X then
    { s with mode := mode }
  else
    s

/-- `video_clear` (video.c lines 263-265): memset the whole allocated
framebuffer (all `FB_SIZE` bytes) to the given uint8_t index. -/
def video_clear (color : ℕ) (s : VideoState) : VideoState :=
  { s with
    framebuffer := fun i => if i < FB_SIZE then color % 256 else s.framebuffer i }

/-- `video_set_color` (video.c lines 280-285): store the three uint8_t
components at palette bytes index*3, index*3+1, index*3+2 and mark the
palette dirty.  The parameters are uint8_t, hence the `% 256`. -/
def video_set_color (index r g b : ℕ) (s : VideoState) : VideoState :=
  { s with
    palette := fun j =>
      if j = (index % 256) * 3 + 0 then r % 256
      else if j = (index % 256) * 3 + 1 then g % 256
      else if j = (index % 256) * 3 + 2 then b % 256
      else s.palette j
    palette_dirty := true }

/-- `video_get_palette` (video.c lines 287-289): copy out the 768
palette bytes. -/
def video_get_palette (s : VideoState) : List ℕ :=
  (List.range 768).map s.palette

/-- `video_set_start` (video.c lines 291-293): the parameter is a
uint16_t. -/
def video_set_start (offset : ℕ) (s : VideoState) : VideoState :=
  { s with start_offset := offset % 65536 }

/-- `video_set_hscroll` (video.c lines 295-297): the parameter is a
uint8_t. -/
def video_set_hscroll (pixels : ℕ) (s : VideoState) : VideoState :=
  { s with hscroll := pixels % 256 }

/-- The CPU half of `video_present` (video.c lines 299-310): rebuild
the RGBA lookup table when the palette is dirty, then convert the
framebuffer; returns the staging-buffer contents together with the
post-present state.  The GPU upload, viewport, and draw are the
external collaborator's side. -/
def video_present_staging (s : VideoState) : List ℕ × VideoState :=
  if s.initialized then
    let s1 := if s.palette_dirty then rebuild_rgba_lut s else s
    (convert_framebuffer_to_rgba s1, s1)
  else
    ([], s)

/-- The state `video_init` (video.c lines 162-235) leaves behind:
mode 13h, a grayscale default palette (entry i gets component i >> 2 in
all three channels, so palette byte j holds (j / 3) >> 2), the lookup
table rebuilt from it, and the initialized flag set. -/
def video_init_state : VideoState :=
  { rebuild_rgba_lut
      { video_state0 with
        mode := VIDEO_MODE_13H
        palette_dirty := true
        palette := fun j => if j < 768 then (j / 3) / 4 else 0 } with
    initialized := true }

/-! ## Part sequencer (src/core/part.c) -/

/-- `sr_part_state_t` from part.h. -/
inductive PartState
  | stopped
  | initializing
  | running
  | cleanup
deriving DecidableEq, Repr

/-- Trace events recording the externally observable actions of the
sequencer: lifecycle-callback invocations (opaque external code) and the
sequencer's own state stores on the part descriptors. -/
inductive PartEvent
  | transitionCb (fromIndex toIndex : ℤ)
  | initCb (i : ℕ)
  | runningSet (i : ℕ)
  | updateCb (i : ℕ)
  | renderCb (i : ℕ)
  | cleanupCb (i : ℕ)
  | stoppedSet (i : ℕ)
deriving DecidableEq, Repr

/-- `PART_REGISTRY_MAX` from part.c. -/
def PART_REGISTRY_MAX : ℕ := 32

/-- The static state of part.c: the registry (one `PartState` per
registered part descriptor, in registration order; `s_registry_count`
is its length), `s_current_index`, `s_running`, plus the DIS and video
singletons it drives, and the event trace.  The transition-notification
callback is opaque external code recorded only through
`PartEvent.transitionCb`. -/
structure LoaderState where
  registry : List PartState
  current_index : ℤ
  running : Bool
  dis : DisState
  video : VideoState
  events : List PartEvent

/-- `part_clear_video` (part.c lines 27-34): 256 `video_set_color`
calls setting every entry to black, then `video_clear(0)`. -/
def part_clear_video (v : VideoState) : VideoState :=
  video_clear 0 ((List.range 256).foldl (fun w i => video_set_color i 0 0 0 w) v)

/-- `part_transition` (part.c lines 39-52): notify the transition
callback (opaque), `dis_reset`, `part_clear_video`. -/
def part_transition (from_index to_index : ℤ) (s : LoaderState) : LoaderState :=
  { s with
    dis := dis_reset s.dis
    video := part_clear_video s.video
    events := s.events ++ [PartEvent.transitionCb from_index to_index] }

/-- `part_loader_init` (part.c lines 54-61): empty registry, index -1,
not running.  The DIS/video singletons are whatever they already are. -/
def part_loader_init (d : DisState) (v : VideoState) : LoaderState :=
  { registry := []
    current_index := -1
    running := false
    dis := d
    video := v
    events := [] }

/-- `part_loader_register` (part.c lines 81-98): append (state
`stopped`) unless the registry is full; a NULL part pointer is also
rejected in C, which the model has no counterpart of. -/
def part_loader_register (s : LoaderState) : ℤ × LoaderState :=
  if s.registry.length ≥ PART_REGISTRY_MAX then (-1, s)
  else (0, { s with registry := s.registry ++ [PartState.stopped] })

/-- `part_loader_start` (part.c lines 100-124): reject an out-of-range
index; otherwise set current index and running, run the transition
sequence from -1, then drive the target part Initializing → init →
Running.  Note the C code does not inspect or stop a previously running
part. -/
def part_loader_start (start_index : ℤ) (s : LoaderState) : ℤ × LoaderState :=
  if start_index < 0 ∨ (s.registry.length : ℤ) ≤ start_index then (-1, s)
  else
    let s1 := { s with current_index := start_index, running := true }
    let s2 := part_transition (-1) start_index s1
    (0, { s2 with
          registry := s2.registry.set start_index.toNat PartState.running
          events := s2.events ++
            [PartEvent.initCb start_index.toNat, PartEvent.runningSet start_index.toNat] })

/-- `part_loader_next` (part.c lines 163-205): guard, cleanup of the
current part (Cleanup → cleanup callback → Stopped; skipped when the
registry pointer at the index is NULL, i.e. beyond the registered
count), index increment, then either end-of-sequence (`running = false`,
index -1, return -1) or the transition + init of the next part. -/
def part_loader_next (s : LoaderState) : ℤ × LoaderState :=
  if ¬ s.running ∨ s.current_index < 0 then (-1, s)
  else
    let i := s.current_index.toNat
    let s1 :=
      { s with
        registry := s.registry.set i PartState.stopped
        events := s.events ++
          (if i < s.registry.length then
            [PartEvent.cleanupCb i, PartEvent.stoppedSet i]
          else []) }
    let nexti := s.current_index + 1
    if (s1.registry.length : ℤ) ≤ nexti then
      (-1, { s1 with running := false, current_index := -1 })
    else
      let s2 := part_transition s.current_index nexti { s1 with current_index := nexti }
      (0, { s2 with
            registry := s2.registry.set nexti.toNat PartState.running
            events := s2.events ++
              [PartEvent.initCb nexti.toNat, PartEvent.runningSet nexti.toNat] })

/-- `part_loader_tick` (part.c lines 126-146): no-op unless running
with a valid index and the current part in state Running; otherwise
consume `dis_waitb`, invoke the update callback (opaque; its int result
is the oracle parameter `advance_now`), and on a non-zero result call
`part_loader_next`. -/
def part_loader_tick (advance_now : Bool) (s : LoaderState) : LoaderState :=
  if ¬ s.running ∨ s.current_index < 0 ∨ (s.registry.length : ℤ) ≤ s.current_index then s
  else if s.registry[s.current_index.toNat]? ≠ some PartState.running then s
  else
    let s1 := { s with
                dis := (dis_waitb s.dis).2
                events := s.events ++ [PartEvent.updateCb s.current_index.toNat] }
    if advance_now then (part_loader_next s1).2 else s1

/-- `part_loader_render` (part.c lines 148-161): same guards as tick,
then the render callback (opaque). -/
def part_loader_render (s : LoaderState) : LoaderState :=
  if ¬ s.running ∨ s.current_index < 0 ∨ (s.registry.length : ℤ) ≤ s.current_index then s
  else if s.registry[s.current_index.toNat]? ≠ some PartState.running then s
  else { s with events := s.events ++ [PartEvent.renderCb s.current_index.toNat] }

/-- `part_loader_current` (part.c lines 207-212): NULL unless running
with an in-range index; otherwise the registry entry. -/
def part_loader_current (s : LoaderState) : Option PartState :=
  if ¬ s.running ∨ s.current_index < 0 ∨ (s.registry.length : ℤ) ≤ s.current_index then none
  else s.registry[s.current_index.toNat]?

/-- `part_loader_get_index` (part.c lines 214-219). -/
def part_loader_get_index (s : LoaderState) : ℤ :=
  if ¬ s.running then -1 else s.current_index

/-- `part_loader_get_count` (part.c lines 221-223). -/
def part_loader_get_count (s : LoaderState) : ℕ :=
  s.registry.length

/-- `part_loader_is_running` (part.c lines 225-227). -/
def part_loader_is_running (s : LoaderState) : Bool :=
  s.running

/-- The sequencer operations of the claim (register, start, tick,
render, next). -/
inductive LoaderOp
  | register
  | start (i : ℤ)
  | tick (advance_now : Bool)
  | render
  | next

/-- One sequencer operation, return value dropped. -/
def loader_step : LoaderOp → LoaderState → LoaderState
  | LoaderOp.register, s => (part_loader_register s).2
  | LoaderOp.start i, s => (part_loader_start i s).2
  | LoaderOp.tick a, s => part_loader_tick a s
  | LoaderOp.render, s => part_loader_render s
  | LoaderOp.next, s => (part_loader_next s).2

/-- States reachable from `part_loader_init` by sequencer operations in
which `part_loader_start` is only invoked while the loader is not
running (the transition "from no part (-1)" described for `start`). -/
inductive LoaderReachable : LoaderState → Prop
  | init (d : DisState) (v : VideoState) : LoaderReachable (part_loader_init d v)
  | register {s : LoaderState} :
      LoaderReachable s → LoaderReachable (loader_step LoaderOp.register s)
  | start {s : LoaderState} (i : ℤ) :
      LoaderReachable s → s.running = false →
      LoaderReachable (loader_step (LoaderOp.start i) s)
  | tick {s : LoaderState} (a : Bool) :
      LoaderReachable s → LoaderReachable (loader_step (LoaderOp.tick a) s)
  | render {s : LoaderState} :
      LoaderReachable s → LoaderReachable (loader_step LoaderOp.render s)
  | next {s : LoaderState} :
      LoaderReachable s → LoaderReachable (loader_step LoaderOp.next s)

/-- The inductive invariant behind the single-Running property: any
registry slot in state `running` is the current index of a running
loader. -/
def LoaderInv (s : LoaderState) : Prop :=
  ∀ j : ℕ, s.registry[j]? = some PartState.running →
    s.running = true ∧ s.current_index = (j : ℤ)

/-! ## Theorems -/

/-- `dis_ticks` accumulates onto the frame counter one by one. -/
theorem dis_ticks_frame_counter (n : ℕ) (s : DisState) :
    (dis_ticks n s).frame_counter = s.frame_counter + n := by
  induction n generalizing s with
  | zero => simp [dis_ticks]
  | succ k ih =>
    show (dis_ticks k (dis_frame_tick s)).frame_counter = s.frame_counter + (k + 1)
    rw [ih (dis_frame_tick s)]
    show s.frame_counter + 1 + k = s.frame_counter + (k + 1)
    omega

/-- C2: after `n` `dis_frame_tick` calls since the previous
`dis_waitb`, `dis_waitb` returns `n` when `n ≥ 1` and `1` when
`n = 0`, and zeroes the internal frame counter so the next `dis_waitb`
counts only later ticks. -/
theorem dis_waitb_returns_tick_count (s : DisState) (n : ℕ) :
    (dis_waitb (dis_ticks n (dis_waitb s).2)).1 = (if n = 0 then 1 else n) ∧
    (dis_waitb (dis_ticks n (dis_waitb s).2)).2.frame_counter = 0 := by
  have h : (dis_ticks n (dis_waitb s).2).frame_counter = n := by
    have h2 := dis_ticks_frame_counter n (dis_waitb s).2
    have h3 : (dis_waitb s).2.frame_counter = 0 := rfl
    omega
  refine ⟨?_, rfl⟩
  simp [dis_waitb] at h ⊢
  simp [h]

/-- A DIS state with a copper routine registered in slot 0. -/
def dis_copper_state : DisState :=
  { dis_state0 with copper := fun k => if k.val = 0 then some 7 else none }

/-- C4 counterexample: `dis_version` (initialize) does not clear the
copper callback slots - a routine registered in slot 0 is still there
after the call, so "both initialize and reset clear all three copper
slots" is false for `dis_version`. -/
theorem dis_version_keeps_copper_cex :
    (dis_version dis_copper_state).2.copper 0 = some 7 := by decide

/-- C4 (amended): both `dis_version` and `dis_reset` zero
`frame_counter` and `total_frames`; `dis_reset` clears all three copper
slots to none, while `dis_version` leaves the copper slots unchanged. -/
theorem dis_reset_version_clear_counters (s : DisState) :
    (dis_reset s).frame_counter = 0 ∧ (dis_reset s).total_frames = 0 ∧
    (∀ k, (dis_reset s).copper k = none) ∧
    (dis_version s).2.frame_counter = 0 ∧ (dis_version s).2.total_frames = 0 ∧
    (dis_version s).2.copper = s.copper :=
  ⟨rfl, rfl, fun _ => rfl, rfl, rfl, rfl⟩

/-- C8: the 6-bit → 8-bit channel expansion `(v << 2) | (v >> 4)` is
exact integer arithmetic (the uint8_t store truncates nothing for
channel values below 64), and maps 63 to 255, 0 to 0, 32 to 130. -/
theorem expand6to8_exact :
    (∀ v, v < 64 → expand6to8 v = (v <<< 2) ||| (v >>> 4)) ∧
    expand6to8 63 = 255 ∧ expand6to8 0 = 0 ∧ expand6to8 32 = 130 := by
  exact ⟨by decide, by decide, by decide, by decide⟩

/-- Witness for `expand6to8_exact` at channel value 32. -/
theorem expand6to8_exact_witness :
    expand6to8 32 = (32 <<< 2) ||| (32 >>> 4) :=
  expand6to8_exact.1 32 (by decide)

/-- C9: the RGBA staging buffer produced by `video_present`'s
framebuffer conversion is the same whatever value was passed to
`video_set_hscroll`: the stored hscroll byte does not influence the
presented pixels. -/
theorem hscroll_noninterference (s : VideoState) (p q : ℕ) :
    convert_framebuffer_to_rgba (video_set_hscroll p s) =
      convert_framebuffer_to_rgba (video_set_hscroll q s) ∧
    (video_present_staging (video_set_hscroll p s)).1 =
      (video_present_staging (video_set_hscroll q s)).1 := by
  obtain ⟨fb, pal, lut, mode, so, hs, dirty, ini⟩ := s
  refine ⟨rfl, ?_⟩
  cases ini <;> cases dirty <;> rfl

/-- C7: `video_set_color(i, r, g, b)` followed by `video_get_palette`
yields exactly the bytes r, g, b at entry i, for every index below 256
and components below 64. -/
theorem video_palette_roundtrip (i r g b : ℕ) (s : VideoState)
    (hi : i < 256) (hr : r < 64) (hg : g < 64) (hb : b < 64) :
    (video_get_palette (video_set_color i r g b s))[i * 3]? = some r ∧
    (video_get_palette (video_set_color i r g b s))[i * 3 + 1]? = some g ∧
    (video_get_palette (video_set_color i r g b s))[i * 3 + 2]? = some b := by
  have h0 : (List.range 768)[i * 3]? = some (i * 3) := List.getElem?_range (by omega)
  have h1 : (List.range 768)[i * 3 + 1]? = some (i * 3 + 1) := List.getElem?_range (by omega)
  have h2 : (List.range 768)[i * 3 + 2]? = some (i * 3 + 2) := List.getElem?_range (by omega)
  refine ⟨?_, ?_, ?_⟩ <;>
    simp [video_get_palette, video_set_color, List.getElem?_map, h0, h1, h2] <;>
    split_ifs <;> omega

/-- Witness for `video_palette_roundtrip` at entry 5 with components
(1, 2, 3). -/
theorem video_palette_roundtrip_witness :
    (video_get_palette (video_set_color 5 1 2 3 video_init_state))[5 * 3]? = some 1 ∧
    (video_get_palette (video_set_color 5 1 2 3 video_init_state))[5 * 3 + 1]? = some 2 ∧
    (video_get_palette (video_set_color 5 1 2 3 video_init_state))[5 * 3 + 2]? = some 3 :=
  video_palette_roundtrip 5 1 2 3 video_init_state (by decide) (by decide) (by decide)
    (by decide)

/-- The bounds property C10 asserts of the conversion loop: every
framebuffer index it reads stays inside the allocated `FB_SIZE`
bytes. -/
def convert_reads_in_bounds (s : VideoState) : Prop :=
  ∀ i, i < video_pixel_count s → s.start_offset + i < FB_SIZE

/-- The failing input for C10: Mode X with display start offset 1, both
set through the public setters. -/
def video_modeX_start1 : VideoState :=
  video_set_start 1 (video_set_mode VIDEO_MODE_X video_init_state)

/-- C10 fails on the code: in Mode X (400 active lines, 128000 pixels)
a display start offset of 1 makes the conversion loop's last read hit
framebuffer index 128000, one past the allocated `FB_SIZE` bytes, so
the Option-returning read takes the out-of-bounds branch. -/
theorem video_present_reads_out_of_bounds :
    video_pixel_count video_modeX_start1 = 128000 ∧
    127999 < video_pixel_count video_modeX_start1 ∧
    video_fb_read_checked video_modeX_start1 127999 = none ∧
    ¬ convert_reads_in_bounds video_modeX_start1 := by
  have hpc : video_pixel_count video_modeX_start1 = 128000 := rfl
  refine ⟨hpc, by rw [hpc]; norm_num, rfl, fun h => ?_⟩
  have h1 := h 127999 (by rw [hpc]; norm_num)
  have h2 : video_modeX_start1.start_offset = 1 := rfl
  rw [h2] at h1
  norm_num [FB_SIZE, VIDEO_WIDTH, VIDEO_HEIGHT_X] at h1

/-- The DIS operations of the public surface: every entry point of
dis.c that mutates the server state, plus a byte store through the
pointer `dis_msgarea` hands out (the only way message areas are ever
written). -/
inductive DisOp
  | version
  | partstart
  | reset
  | frame_tick
  | waitb
  | setcopper (n : ℤ) (r : Option ℕ)
  | setmframe (f : ℤ)
  | handle_event (esc : Bool)
  | msg_write (area : ℤ) (off : Fin DIS_MSG_AREA_SIZE) (v : ℕ)

/-- One DIS operation, return value dropped. -/
def dis_op_step : DisOp → DisState → DisState
  | DisOp.version, s => (dis_version s).2
  | DisOp.partstart, s => dis_partstart s
  | DisOp.reset, s => dis_reset s
  | DisOp.frame_tick, s => dis_frame_tick s
  | DisOp.waitb, s => (dis_waitb s).2
  | DisOp.setcopper n r, s => dis_setcopper n r s
  | DisOp.setmframe f, s => dis_setmframe f s
  | DisOp.handle_event e, s => dis_handle_event e s
  | DisOp.msg_write a off v, s => dis_msgarea_write a off v s

/-- Whether a DIS operation is an explicit message-area write. -/
def DisOp.is_msg_write : DisOp → Bool
  | DisOp.msg_write _ _ _ => true
  | _ => false

/-- C5: `dis_reset`, `dis_version` and a part transition leave every
byte of every message area unchanged; more generally every DIS
operation other than an explicit write through the `dis_msgarea`
pointer preserves the message areas. -/
theorem msg_areas_persist (op : DisOp) (s : DisState) (fi ti : ℤ)
    (ls : LoaderState) (h : op.is_msg_write = false) :
    (dis_reset s).msg_areas = s.msg_areas ∧
    (dis_version s).2.msg_areas = s.msg_areas ∧
    (part_transition fi ti ls).dis.msg_areas = ls.dis.msg_areas ∧
    (dis_op_step op s).msg_areas = s.msg_areas := by
  refine ⟨rfl, rfl, rfl, ?_⟩
  cases op with
  | setcopper n r =>
    simp only [dis_op_step, dis_setcopper]
    split <;> rfl
  | handle_event e =>
    cases e <;> rfl
  | msg_write a off v => simp [DisOp.is_msg_write] at h
  | _ => rfl

/-- Witness for `msg_areas_persist` at the `reset` operation. -/
theorem msg_areas_persist_witness :
    (dis_reset dis_state0).msg_areas = dis_state0.msg_areas ∧
    (dis_version dis_state0).2.msg_areas = dis_state0.msg_areas ∧
    (part_transition 0 1 (part_loader_init dis_state0 video_state0)).dis.msg_areas =
      (part_loader_init dis_state0 video_state0).dis.msg_areas ∧
    (dis_op_step DisOp.reset dis_state0).msg_areas = dis_state0.msg_areas :=
  msg_areas_persist DisOp.reset dis_state0 0 1 (part_loader_init dis_state0 video_state0) rfl

/-- C6: advancing past the last registered part returns the sentinel
-1 (distinguishable from the success return 0), after which
`part_loader_is_running` is false and `part_loader_current` is none. -/
theorem part_loader_next_exhausts (s : LoaderState)
    (hrun : s.running = true) (h0 : 0 ≤ s.current_index)
    (hlast : s.current_index + 1 = (s.registry.length : ℤ)) :
    (part_loader_next s).1 = -1 ∧
    part_loader_is_running (part_loader_next s).2 = false ∧
    part_loader_current (part_loader_next s).2 = none ∧
    (part_loader_next s).1 ≠ 0 := by
  have hg : ¬ (¬ s.running ∨ s.current_index < 0) := by
    rw [hrun]
    simp
    omega
  have hlen : ((s.registry.set s.current_index.toNat PartState.stopped).length : ℤ) ≤
      s.current_index + 1 := by
    rw [List.length_set]
    omega
  simp only [part_loader_next, if_neg hg, if_pos hlen]
  refine ⟨by trivial, by trivial, by simp [part_loader_current], by decide⟩

/-- A one-part loader in its running state. -/
def loader_one_running : LoaderState :=
  { registry := [PartState.running]
    current_index := 0
    running := true
    dis := dis_state0
    video := video_state0
    events := [] }

/-- Witness for `part_loader_next_exhausts` on a one-part registry. -/
theorem part_loader_next_exhausts_witness :
    (part_loader_next loader_one_running).1 = -1 ∧
    part_loader_is_running (part_loader_next loader_one_running).2 = false ∧
    part_loader_current (part_loader_next loader_one_running).2 = none ∧
    (part_loader_next loader_one_running).1 ≠ 0 :=
  part_loader_next_exhausts loader_one_running rfl (by decide) (by decide)

/-- A music observation with the given playback position, order 0,
playing. -/
def music_playing_at (pos : ℚ) : MusicState :=
  { playing := true, posSeconds := pos, currentOrder := 0, currentRow := 0 }

/-- C1 counterexample: `dis_sync` keeps no record of the value it last
returned, so on a trace where the music position seeks backwards
(6.0 s, then 0.29 s) the returned sync point regresses from 2 to 0
instead of clamping to the previous value. -/
theorem dis_sync_regresses_on_seek :
    dis_sync (music_playing_at 6) dis_state0 = 2 ∧
    dis_sync (music_playing_at (29 / 100)) dis_state0 = 0 ∧
    dis_sync (music_playing_at (29 / 100)) dis_state0 <
      dis_sync (music_playing_at 6) dis_state0 := by
  have h1 : dis_sync (music_playing_at 6) dis_state0 = 2 := by
    norm_num [dis_sync, music_playing_at]
  have h2 : dis_sync (music_playing_at (29 / 100)) dis_state0 = 0 := by
    norm_num [dis_sync, music_playing_at]
  exact ⟨h1, h2, by rw [h1, h2]; norm_num⟩


/-- The position bucket of `dis_sync`'s playing branch: which of the
four time thresholds (0.3 s, 5.5 s, 10.5 s, 15.5 s) the playback
position has passed. -/
def sync_pos_bucket (p : ℚ) : ℕ :=
  if p < 3/10 then 0 else if p < 11/2 then 1 else if p < 21/2 then 2
  else if p < 31/2 then 3 else 4

/-- The order-based sync value of `dis_sync`'s credits phase. -/
def sync_order_value (o : ℤ) : ℕ :=
  if o ≥ 8 then 8 else if o ≥ 7 then 7 else if o ≥ 6 then 6
  else if o ≥ 5 then 5 else 4

theorem sync_pos_bucket_mono {p1 p2 : ℚ} (h : p1 ≤ p2) :
    sync_pos_bucket p1 ≤ sync_pos_bucket p2 := by
  unfold sync_pos_bucket
  split_ifs <;> first | omega | linarith

theorem sync_pos_bucket_le_4 (p : ℚ) : sync_pos_bucket p ≤ 4 := by
  unfold sync_pos_bucket
  split_ifs <;> omega

theorem sync_order_value_mono {o1 o2 : ℤ} (h : o1 ≤ o2) :
    sync_order_value o1 ≤ sync_order_value o2 := by
  unfold sync_order_value
  split_ifs <;> omega

theorem sync_order_value_ge_4 (o : ℤ) : 4 ≤ sync_order_value o := by
  unfold sync_order_value
  split_ifs <;> omega

/-- When music is playing, `dis_sync` is the position bucket until it
saturates, then the order value. -/
theorem dis_sync_playing_eq (m : MusicState) (s : DisState) (h : m.playing = true) :
    dis_sync m s =
      if sync_pos_bucket m.posSeconds < 4 then sync_pos_bucket m.posSeconds
      else sync_order_value m.currentOrder := by
  unfold dis_sync sync_pos_bucket sync_order_value
  rw [h]
  simp only [if_true]
  split_ifs <;> omega

/-- C1 (amended): `dis_sync` is a pure threshold function of its
inputs, non-decreasing in them: across two calls with the same playing
flag, non-decreasing music position and order, and non-decreasing
total frame count, the returned sync point never decreases.  (When the
inputs regress - a seek or loop - the returned value regresses with
them; there is no clamping to the previously returned value.) -/
theorem dis_sync_monotone_in_inputs (m1 m2 : MusicState) (s1 s2 : DisState)
    (hplay : m1.playing = m2.playing)
    (hpos : m1.posSeconds ≤ m2.posSeconds)
    (hord : m1.currentOrder ≤ m2.currentOrder)
    (hfr : s1.total_frames ≤ s2.total_frames) :
    dis_sync m1 s1 ≤ dis_sync m2 s2 := by
  cases hp : m2.playing with
  | true =>
    rw [dis_sync_playing_eq m1 s1 (hplay.trans hp), dis_sync_playing_eq m2 s2 hp]
    have hb := sync_pos_bucket_mono hpos
    have hb1 := sync_pos_bucket_le_4 m1.posSeconds
    have hb2 := sync_pos_bucket_le_4 m2.posSeconds
    have hv := sync_order_value_mono hord
    have h4 := sync_order_value_ge_4 m2.currentOrder
    split_ifs <;> omega
  | false =>
    unfold dis_sync
    rw [hplay, hp]
    simp only [Bool.false_eq_true, if_false, Nat.min_def, SYNC_FRAMES_FIRST,
      SYNC_FRAMES_PER_POINT, SYNC_POINT_MAX]
    split_ifs <;> omega

/-- Witness for `dis_sync_monotone_in_inputs`: positions 1 s and 20 s. -/
theorem dis_sync_monotone_in_inputs_witness :
    dis_sync (music_playing_at 1) dis_state0 ≤ dis_sync (music_playing_at 20) dis_state0 :=
  dis_sync_monotone_in_inputs (music_playing_at 1) (music_playing_at 20) dis_state0 dis_state0
    rfl (by norm_num [music_playing_at]) (by norm_num [music_playing_at]) le_rfl

theorem loader_inv_register {s : LoaderState} (h : LoaderInv s) :
    LoaderInv (part_loader_register s).2 := by
  unfold part_loader_register
  split
  · exact h
  · intro j hj
    simp only at hj
    rw [List.getElem?_append] at hj
    split at hj
    · exact h j hj
    · cases hk : j - s.registry.length with
      | zero => rw [hk] at hj; simp at hj
      | succ k => rw [hk] at hj; simp at hj

theorem loader_inv_start {s : LoaderState} (i : ℤ) (h : LoaderInv s)
    (hns : s.running = false) : LoaderInv (part_loader_start i s).2 := by
  unfold part_loader_start
  by_cases hc : i < 0 ∨ (s.registry.length : ℤ) ≤ i
  · rw [if_pos hc]; exact h
  · rw [if_neg hc]
    push_neg at hc
    intro j hj
    simp only [part_transition] at hj
    by_cases hji : i.toNat = j
    · subst hji
      exact ⟨rfl, by simp only [part_transition]; omega⟩
    · rw [List.getElem?_set_ne hji] at hj
      have h2 := (h j hj).1
      rw [hns] at h2
      exact absurd h2 (by simp)

theorem loader_inv_next {s : LoaderState} (h : LoaderInv s) :
    LoaderInv (part_loader_next s).2 := by
  unfold part_loader_next
  by_cases hg : ¬ s.running ∨ s.current_index < 0
  · rw [if_pos hg]; exact h
  · rw [if_neg hg]
    push_neg at hg
    obtain ⟨hrun, h0⟩ := hg
    have hcast : (s.current_index.toNat : ℤ) = s.current_index := Int.toNat_of_nonneg h0
    simp only
    split
    · -- end of registry: no slot can be running afterwards
      intro j hj
      simp only at hj
      rw [List.getElem?_set] at hj
      split at hj
      · rename_i hij
        split at hj
        · simp at hj
        · simp at hj
      · rename_i hij
        have h2 := (h j hj).2
        omega
    · -- transition into the next part
      intro j hj
      simp only [part_transition] at hj
      by_cases hji : (s.current_index + 1).toNat = j
      · refine ⟨hrun, ?_⟩
        simp only [part_transition]
        omega
      · rw [List.getElem?_set_ne hji] at hj
        rw [List.getElem?_set] at hj
        split at hj
        · split at hj
          · simp at hj
          · simp at hj
        · rename_i hij
          have h2 := (h j hj).2
          omega

theorem loader_inv_tick {s : LoaderState} (a : Bool) (h : LoaderInv s) :
    LoaderInv (part_loader_tick a s) := by
  unfold part_loader_tick
  split
  · exact h
  · split
    · exact h
    · cases a
      · exact fun j hj => h j hj
      · exact loader_inv_next (fun j hj => h j hj)

theorem loader_inv_render {s : LoaderState} (h : LoaderInv s) :
    LoaderInv (part_loader_render s) := by
  unfold part_loader_render
  split
  · exact h
  · split
    · exact h
    · exact fun j hj => h j hj

/-- Every reachable loader state satisfies the invariant. -/
theorem loader_reachable_inv {s : LoaderState} (h : LoaderReachable s) :
    LoaderInv s := by
  induction h with
  | init d v => intro j hj; simp [part_loader_init] at hj
  | register _ ih => exact loader_inv_register ih
  | start i _ hns ih => exact loader_inv_start i ih hns
  | tick a _ ih => exact loader_inv_tick a ih
  | render _ ih => exact loader_inv_render ih
  | next _ ih => exact loader_inv_next ih

/-- C3 (amended): for every sequence of sequencer operations in which
`part_loader_start` is invoked only while the loader is not running
(the "from no part (-1)" transition it implements), at most one
registered part is in state Running at any time; and an advance to a
following part emits the outgoing part's cleanup callback and its
Stopped store strictly before the incoming part's init callback. -/
theorem part_loader_single_running :
    (∀ s, LoaderReachable s → ∀ j k : ℕ,
      s.registry[j]? = some PartState.running →
      s.registry[k]? = some PartState.running → j = k) ∧
    (∀ s : LoaderState, s.running = true → 0 ≤ s.current_index →
      s.current_index + 1 < (s.registry.length : ℤ) →
      (part_loader_next s).2.events = s.events ++
        [PartEvent.cleanupCb s.current_index.toNat,
         PartEvent.stoppedSet s.current_index.toNat,
         PartEvent.transitionCb s.current_index (s.current_index + 1),
         PartEvent.initCb (s.current_index + 1).toNat,
         PartEvent.runningSet (s.current_index + 1).toNat]) := by
  constructor
  · intro s hs j k hj hk
    have h1 := loader_reachable_inv hs j hj
    have h2 := loader_reachable_inv hs k hk
    omega
  · intro s hrun h0 hlt
    have hg : ¬ (¬ s.running ∨ s.current_index < 0) := by
      rw [hrun]
      simp
      omega
    have hi : s.current_index.toNat < s.registry.length := by omega
    have hend : ¬ (((s.registry.set s.current_index.toNat PartState.stopped).length : ℤ) ≤
        s.current_index + 1) := by
      rw [List.length_set]
      omega
    simp only [part_loader_next, if_neg hg, if_pos hi, if_neg hend, part_transition]
    simp [List.append_assoc]

/-- A two-part loader running its first part (the state produced by
register, register, start 0 from a fresh loader). -/
def loader_two_running0 : LoaderState :=
  { registry := [PartState.running, PartState.stopped]
    current_index := 0
    running := true
    dis := dis_state0
    video := video_state0
    events := [] }

/-- Witness for `part_loader_single_running` (second part) on a
two-part registry running part 0. -/
theorem part_loader_single_running_witness :
    (part_loader_next loader_two_running0).2.events = [] ++
      [PartEvent.cleanupCb 0, PartEvent.stoppedSet 0,
       PartEvent.transitionCb 0 1, PartEvent.initCb 1, PartEvent.runningSet 1] :=
  part_loader_single_running.2 loader_two_running0 rfl (by decide) (by decide)

/-- The loader state after register, register, start 0, start 1 (the
second `part_loader_start` issued while part 0 is still running). -/
def loader_double_start : LoaderState :=
  (part_loader_start 1 (part_loader_start 0
    (part_loader_register (part_loader_register
      (part_loader_init dis_state0 video_state0)).2).2).2).2

/-- C3 counterexample: `part_loader_start` never inspects or stops an
already running part, so the operation sequence register, register,
start 0, start 1 leaves both registered parts in state Running at
once - the "at most one part Running under every operation sequence"
claim is false. -/
theorem part_loader_double_start_cex :
    loader_double_start.registry = [PartState.running, PartState.running] := by
  decide
